import Mathlib

/-!
Verification development for the parliamentary_scanner backend.

The Python sources under `backend/` are shallowly embedded: pure helpers become
Lean functions, the SQLite tables become lists of rows, and the asynchronous
pipeline stages become explicit state-passing functions whose external inputs
(HTTP responses, classifier responses, the cancellation flag) are parameters.
Machine floats and wall-clock time never influence the control flow that is
modelled; sleeps are recorded as the list of requested durations in seconds.
-/

namespace ParliamentaryScanner

/-! ### Python string primitives

`str.strip()` / `str.split()` on the texts handled here use ASCII whitespace;
we model the ASCII whitespace set (the only characters occurring in the data
and in the procedural patterns). -/

def pyIsSpace (c : Char) : Bool :=
  c = ' ' || c = '\t' || c = '\n' || c = '\r' || c = '\x0b' || c = '\x0c'

/-- `str.strip()`: drop leading and trailing whitespace. -/
def pyStripList (cs : List Char) : List Char :=
  ((cs.dropWhile pyIsSpace).reverse.dropWhile pyIsSpace).reverse

def pyStrip (s : String) : String :=
  ⟨pyStripList s.data⟩

/-- Helper for `len(s.split())`: count maximal runs of non-whitespace. -/
def countWordsAux : List Char → Bool → Nat
  | [], _ => 0
  | c :: rest, inWord =>
    if pyIsSpace c then countWordsAux rest false
    else (if inWord then 0 else 1) + countWordsAux rest true

/-- `len(s.split())` in Python: number of whitespace-separated words. -/
def pyWordCount (s : String) : Nat :=
  countWordsAux s.data false

/-- Lower-case a string character-wise (ASCII, as in `re.IGNORECASE` over
the ASCII pattern literals used by the classifier's procedural filter). -/
def lowerStr (s : String) : String :=
  ⟨s.data.map Char.toLower⟩

/-- First-`n`-characters slice `s[:n]`. -/
def pyTake (s : String) (n : Nat) : String :=
  ⟨s.data.take n⟩

/-! ### A small regular-expression evaluator

`classifier.PROCEDURAL_RE` is `re.compile("|".join(PROCEDURAL_PATTERNS),
re.IGNORECASE)` used through `re.match`, i.e. anchored at the start of the
text.  The seven patterns only use literals, alternation, optional groups and
`\d+`, so we embed exactly that fragment.  `matchRem p cs` returns every
possible remainder of `cs` after `p` has consumed a prefix — the set of
outcomes a backtracking matcher can reach, so `matchRem p cs ≠ []` coincides
with Python's anchored `re.match`. -/

inductive Pat where
  | lit (s : String)
  | alt (p q : Pat)
  | seq (p q : Pat)
  | opt (p : Pat)
  | digits1
deriving Repr

/-- Match a literal against the head of the text, returning the remainder. -/
def litMatch : List Char → List Char → Option (List Char)
  | [], cs => some cs
  | _ :: _, [] => none
  | p :: ps, c :: cs => if p = c then litMatch ps cs else none

/-- Remainders after consuming one or more leading decimal digits (`\d+`). -/
def digitsRem : List Char → List (List Char)
  | [] => []
  | c :: rest => if c.isDigit then rest :: digitsRem rest else []

def matchRem : Pat → List Char → List (List Char)
  | .lit s, cs =>
    match litMatch s.data cs with
    | some rest => [rest]
    | none => []
  | .alt p q, cs => matchRem p cs ++ matchRem q cs
  | .seq p q, cs => (matchRem p cs).flatMap (matchRem q)
  | .opt p, cs => cs :: matchRem p cs
  | .digits1, cs => digitsRem cs

/-- Right-nested sequencing of a pattern list. -/
def seqList : List Pat → Pat
  | [] => .lit ""
  | [p] => p
  | p :: rest => .seq p (seqList rest)

/-- Right-nested alternation of a pattern list. -/
def altList : List Pat → Pat
  | [] => .lit ""
  | [p] => p
  | p :: rest => .alt p (altList rest)

/-! The seven `PROCEDURAL_PATTERNS` of `backend/services/classifier.py`
(lines 33–41), written over lower-cased text. -/

/-- `^(the|this) (question|bill|motion) (is|was) (put|agreed|negatived|read)` -/
def pat1 : Pat := seqList
  [altList [.lit "the", .lit "this"], .lit " ",
   altList [.lit "question", .lit "bill", .lit "motion"], .lit " ",
   altList [.lit "is", .lit "was"], .lit " ",
   altList [.lit "put", .lit "agreed", .lit "negatived", .lit "read"]]

/-- `^I refer the (honourable|right honourable|hon\.) (member|gentleman|lady)` -/
def pat2 : Pat := seqList
  [.lit "i refer the ",
   altList [.lit "honourable", .lit "right honourable", .lit "hon."], .lit " ",
   altList [.lit "member", .lit "gentleman", .lit "lady"]]

/-- `^(ordered|resolved),? that` -/
def pat3 : Pat := seqList
  [altList [.lit "ordered", .lit "resolved"], .opt (.lit ","), .lit " that"]

/-- `^(question|bill) (accordingly|put) (and )?agreed` -/
def pat4 : Pat := seqList
  [altList [.lit "question", .lit "bill"], .lit " ",
   altList [.lit "accordingly", .lit "put"], .lit " ",
   .opt (.lit "and "), .lit "agreed"]

/-- `^the (deputy )?(speaker|chairman|chair) ` (note the trailing space) -/
def pat5 : Pat := seqList
  [.lit "the ", .opt (.lit "deputy "),
   altList [.lit "speaker", .lit "chairman", .lit "chair"], .lit " "]

/-- `^I beg to move` -/
def pat6 : Pat := .lit "i beg to move"

/-- `^(clause|amendment|new clause) \d+ (read|ordered)` -/
def pat7 : Pat := seqList
  [altList [.lit "clause", .lit "amendment", .lit "new clause"], .lit " ",
   .digits1, .lit " ",
   altList [.lit "read", .lit "ordered"]]

def PROCEDURAL_PATTERNS : List Pat := [pat1, pat2, pat3, pat4, pat5, pat6, pat7]

/-- `bool(PROCEDURAL_RE.match(s))`: some pattern matches a prefix of `s`,
case-insensitively (every alternative of the compiled regex is `^`-anchored,
and `re.match` anchors at position 0 in any case). -/
def proceduralMatch (s : String) : Bool :=
  PROCEDURAL_PATTERNS.any (fun p => !(matchRem p (lowerStr s).data).isEmpty)

/-- `classifier.is_procedural(text, source_type)` (classifier.py lines 145–155).
Debate-type contributions carry the source-type tag `"hansard"`. -/
def is_procedural (text : String) (source_type : String) : Bool :=
  let stripped := pyStrip text
  let min_words : Nat := if source_type = "hansard" then 5 else 8
  if pyWordCount stripped < min_words then true
  else proceduralMatch stripped

/-- The source-type-dependent word minimum as the spec states it:
5 for debate-type (`"hansard"`) contributions, 8 for every other source type. -/
def specMinWords (source_type : String) : Nat :=
  if source_type = "hansard" then 5 else 8

/-! ### The `Contribution` record (parliament.py lines 70–83)

`date` is a `datetime` in the source, used by the pipeline only through
`strftime("%Y-%m-%d")`; we carry the already-formatted date string. -/

structure Contribution where
  id : String
  member_name : String
  member_id : String
  text : String
  date : String
  house : String
  source_type : String
  context : String
  url : String
  matched_keywords : List String
deriving DecidableEq, Repr

/-- The stable dedup identity `f"\x7bc.source_type\x7d:\x7bc.id\x7d"`
(scanner.py lines 44, 264, 351). -/
def dedupKey (c : Contribution) : String :=
  c.source_type ++ ":" ++ c.id

/-- The keyword-merge loop of scanner.py lines 47–49 / 268–270:
`for kw in new: if kw not in existing: existing.append(kw)`. -/
def mergeKeywords (existing new : List String) : List String :=
  new.foldl (fun acc kw => if kw ∈ acc then acc else acc ++ [kw]) existing

/-! ### The incremental dedup-and-prefilter registry
(scanner.py `_search_keyword`, lines 260–285)

All admissions happen under `progress_lock`, so concurrent discoveries are
serialized; the registry is therefore a fold over the admission order.  The
`seen` map is insertion-ordered, as a Python dict is; the classification queue
and the procedural discard list hold (references to) the admitted entries,
recorded here by identity key. -/

structure DedupRegistry where
  seen : List (String × Contribution)
  queuedKeys : List String
  proceduralKeys : List String
deriving DecidableEq, Repr

def emptyRegistry : DedupRegistry := ⟨[], [], []⟩

def lookupSeen (m : List (String × Contribution)) (k : String) : Option Contribution :=
  (m.find? (fun p => p.1 = k)).map (fun p => p.2)

def updateSeen (m : List (String × Contribution)) (k : String) (c : Contribution) :
    List (String × Contribution) :=
  m.map (fun p => if p.1 = k then (p.1, c) else p)

/-- One iteration of the `for c in results:` body of `_search_keyword`
(scanner.py lines 264–280): a repeat identity only merges keywords into the
already-admitted entry (which the queue aliases) and is never re-enqueued; a
new identity is either discarded as procedural or enqueued for classification. -/
def registryAdmit (st : DedupRegistry) (c : Contribution) : DedupRegistry :=
  let key := dedupKey c
  match lookupSeen st.seen key with
  | some existing =>
    let merged := { existing with
      matched_keywords := mergeKeywords existing.matched_keywords c.matched_keywords }
    { st with seen := updateSeen st.seen key merged }
  | none =>
    if is_procedural c.text c.source_type then
      { seen := st.seen ++ [(key, c)]
        queuedKeys := st.queuedKeys
        proceduralKeys := st.proceduralKeys ++ [key] }
    else
      { seen := st.seen ++ [(key, c)]
        queuedKeys := st.queuedKeys ++ [key]
        proceduralKeys := st.proceduralKeys }

/-- `scanner._dedup_contributions` (lines 40–52): batch dedup by
`(source_type, id)` merging `matched_keywords`, in first-arrival order. -/
def dedup_contributions (cs : List Contribution) : List Contribution :=
  (cs.foldl
    (fun seen c =>
      let key := dedupKey c
      match lookupSeen seen key with
      | some existing =>
        updateSeen seen key
          { existing with
            matched_keywords := mergeKeywords existing.matched_keywords c.matched_keywords }
      | none => seen ++ [(key, c)])
    []).map (fun p => p.2)

/-! ### Python dynamic values and tuple unpacking

`TopicClassifier.classify` returns a Python tuple whose elements are a dict or
`None`, strings or `None`, and the usage dict.  Multiple assignment
`a, b, c = t` raises `ValueError` unless `len(t) == 3`. -/

inductive PyObj where
  | none
  | pybool (b : Bool)
  | num (n : Int)
  | str (s : String)
  | list (xs : List PyObj)
  | dict (entries : List (String × PyObj))

/-- Python truthiness for the values that occur here. -/
def pyTruthy : PyObj → Bool
  | .none => false
  | .pybool b => b
  | .num n => n ≠ 0
  | .str s => s ≠ ""
  | .list xs => !xs.isEmpty
  | .dict es => !es.isEmpty

/-- `d.get(k, dflt)` on a dict (and the `d[k]` reads of `_classify_one`, whose
keys are always present in the dicts `classify` builds, so `.get` agrees). -/
def pyDictGet (o : PyObj) (k : String) (dflt : PyObj) : PyObj :=
  match o with
  | .dict es =>
    match es.find? (fun e => e.1 = k) with
    | some e => e.2
    | Option.none => dflt
  | _ => dflt

/-- SQLite parameter binding for a value that is a `str` or `None`. -/
def pyToOptStr : PyObj → Option String
  | .str s => some s
  | _ => Option.none

def valueErrorUnpack3 : String := "ValueError: too many values to unpack (expected 3)"

/-- Python multiple assignment `x, y, z = t` for a tuple `t`. -/
def unpack3 {α : Type} (xs : List α) : Except String (α × α × α) :=
  match xs with
  | [a, b, c] => .ok (a, b, c)
  | xs =>
    if xs.length > 3 then .error valueErrorUnpack3
    else .error "ValueError: not enough values to unpack (expected 3)"

/-! ### `TopicClassifier.classify` (classifier.py lines 177–240)

Every non-raising exit of `classify` is one of
`return None, reason, category, usage` (lines 232, 251) or
`return \x7b...\x7d, None, None, usage` (line 240): a 4-tuple. -/

structure RelevantInfo where
  confidence : String
  topics : List String
  summary : String
  position_signal : String
  verbatim_quote : String

structure LlmUsage where
  input_tokens : Nat
  output_tokens : Nat
  cache_read_tokens : Nat
  cache_write_tokens : Nat

/-- The dict built at classifier.py lines 234–240 for a relevant outcome. -/
def relevantDict (i : RelevantInfo) : PyObj :=
  .dict [("confidence", .str i.confidence),
         ("topics", .list (i.topics.map .str)),
         ("summary", .str i.summary),
         ("position_signal", .str i.position_signal),
         ("verbatim_quote", .str i.verbatim_quote)]

/-- The usage dict built at classifier.py lines 211–216. -/
def usageDict (u : LlmUsage) : PyObj :=
  .dict [("input_tokens", .num u.input_tokens),
         ("output_tokens", .num u.output_tokens),
         ("cache_read_tokens", .num u.cache_read_tokens),
         ("cache_write_tokens", .num u.cache_write_tokens)]

/-- The two non-raising outcomes of `classify`. -/
inductive ClassifyValue where
  | relevant (info : RelevantInfo)
  | discarded (reason : String) (category : String)

/-- The tuple value a non-raising `classify` call returns. -/
def classifyReturnTuple (v : ClassifyValue) (u : LlmUsage) : List PyObj :=
  match v with
  | .relevant i => [relevantDict i, .none, .none, usageDict u]
  | .discarded r c => [.none, .str r, .str c, usageDict u]

/-- Observable behaviour of one `await classifier.classify(c)` call:
either it raises `ClassifierAPIError` (carrying `str(e)`) after its internal
retries, or it returns the 4-tuple. -/
inductive ClassifyCall where
  | raises (msg : String)
  | returns (v : ClassifyValue) (u : LlmUsage)

/-! ### Rows of the `results` and `audit_log` tables -/

structure MemberInfo where
  name : String
  party : String
  member_type : String
  constituency : String

def emptyMemberInfo : MemberInfo := ⟨"", "", "", ""⟩

/-- `scanner._forum_label` (lines 55–65). -/
def forumLabel (c : Contribution) : String :=
  if c.source_type = "hansard" then
    (if c.context ≠ "" then "Debate: " ++ c.context else "Parliamentary debate")
  else if c.source_type = "written_question" then
    (if c.context ≠ "" then "Written Question: " ++ c.context else "Written Question")
  else if c.source_type = "written_statement" then
    (if c.context ≠ "" then "Written Statement: " ++ c.context else "Written Statement")
  else if c.source_type = "edm" then
    (if c.context ≠ "" then c.context else "Early Day Motion")
  else if c.source_type = "bill" then
    (if c.context ≠ "" then c.context else "Bill")
  else if c.source_type = "division" then
    (if c.context ≠ "" then c.context else "Division vote")
  else c.source_type

/-- JSON encoding of a list of strings, as `json.dumps` prints it. -/
def jsonEscapeChar (c : Char) : String :=
  if c = '"' then "\\\"" else if c = '\\' then "\\\\" else String.singleton c

def jsonStr (s : String) : String :=
  "\"" ++ String.join (s.data.map jsonEscapeChar) ++ "\""

def jsonDumpsStrList (xs : List String) : String :=
  "[" ++ String.intercalate ", " (xs.map jsonStr) ++ "]"

/-- A row of the `results` table as `insert_result` receives it
(database.py lines 732–758).  `topics`, `summary`, `confidence`,
`position_signal` and `verbatim_quote` are handed over as the Python values
taken from the classification dict (serialized at the SQL boundary); we keep
the values themselves. -/
structure ResultRow where
  scan_id : Nat
  dedup_key : String
  member_name : String
  member_id : String
  party : String
  member_type : String
  constituency : String
  topics : PyObj
  summary : PyObj
  activity_date : String
  forum : String
  verbatim_quote : PyObj
  source_url : String
  confidence : PyObj
  position_signal : PyObj
  source_type : String
  raw_text : String

/-- A row of the `audit_log` table in the positional order
`insert_audit_log_batch` receives (scanner.py e.g. lines 393–402). -/
structure AuditRow where
  scan_id : Nat
  member_name : String
  source_type : String
  text_preview : String
  classification : String
  activity_date : String
  context : String
  full_text : String
  matched_keywords : String
  source_url : String
  discard_reason : Option String
  discard_category : Option String
deriving DecidableEq, Repr

/-- The result row built by the Relevant branch of `_classify_one`
(scanner.py lines 345–373). -/
def mkResultRow (scanId : Nat) (c : Contribution) (classification : PyObj)
    (info : MemberInfo) : ResultRow :=
  { scan_id := scanId
    dedup_key := dedupKey c
    member_name := c.member_name
    member_id := c.member_id
    party := info.party
    member_type := info.member_type
    constituency := info.constituency
    topics := pyDictGet classification "topics" .none
    summary := pyDictGet classification "summary" .none
    activity_date := c.date
    forum := forumLabel c
    verbatim_quote := pyDictGet classification "verbatim_quote" (.str "")
    source_url := c.url
    confidence := pyDictGet classification "confidence" .none
    position_signal := pyDictGet classification "position_signal" (.str "")
    source_type := c.source_type
    raw_text := pyTake c.text 2000 }

/-- The `not_relevant` audit row of `_classify_one` (scanner.py lines 393–402). -/
def mkNotRelevantAudit (scanId : Nat) (c : Contribution)
    (reason category : Option String) : AuditRow :=
  { scan_id := scanId
    member_name := c.member_name
    source_type := c.source_type
    text_preview := pyTake c.text 200
    classification := "not_relevant"
    activity_date := c.date
    context := c.context
    full_text := pyTake c.text 2000
    matched_keywords := jsonDumpsStrList c.matched_keywords
    source_url := c.url
    discard_reason := reason
    discard_category := category }

/-! ### `_classify_one` (scanner.py lines 307–423, topics-only pipeline)

The semaphore and the `CLASSIFIER_STAGGER` sleep only pace execution; the
cancellation event and the shared `api_paused` flag are passed in as the
values read at the two guards.  `lookup` is the environment's
`client.lookup_member`; per lines 347–349 it is consulted only when
`contribution.member_id` is truthy. -/

inductive OneResult where
  | skippedCancelled
  | divertedToRetry (apiError : Option String)
  | pythonError (msg : String)
  | completed (memberLookupPerformed : Bool)
      (persisted : Option ResultRow) (audit : Option AuditRow)

def classifyOneStep (scanId : Nat) (lookup : String → MemberInfo)
    (c : Contribution) (cancel apiPaused : Bool) (call : ClassifyCall) : OneResult :=
  if cancel then .skippedCancelled
  else if apiPaused then .divertedToRetry Option.none
  else
    match call with
    | .raises e => .divertedToRetry (some e)
    | .returns v u =>
      match unpack3 (classifyReturnTuple v u) with
      | .error m => .pythonError m
      | .ok (classification, discard_reason, discard_category) =>
        if pyTruthy classification then
          let info := if c.member_id ≠ "" then lookup c.member_id else emptyMemberInfo
          .completed (decide (c.member_id ≠ ""))
            (some (mkResultRow scanId c classification info)) Option.none
        else
          .completed false Option.none
            (some (mkNotRelevantAudit scanId c
              (pyToOptStr discard_reason) (pyToOptStr discard_category)))

/-- Rows visible in the store after one `_classify_one` task: tasks are run by
`_classification_consumer`, which awaits them with
`asyncio.gather(..., return_exceptions=True)` (scanner.py lines 425–438), so a
task that raises contributes no rows and propagates nothing. -/
def observedRows : OneResult → Option ResultRow × Option AuditRow
  | .completed _ p a => (p, a)
  | _ => (Option.none, Option.none)

/-- `_classification_consumer` over a queue draining to the given items, with
the per-item classify outcome supplied by `call`.  Returns the persisted
result rows and audit rows; exceptions of the spawned tasks are swallowed. -/
def consumerRun (scanId : Nat) (lookup : String → MemberInfo)
    (items : List Contribution) (call : Contribution → ClassifyCall) :
    List ResultRow × List AuditRow :=
  (items.map (fun c => observedRows (classifyOneStep scanId lookup c false false (call c)))).foldl
    (fun acc pr => (acc.1 ++ pr.1.toList, acc.2 ++ pr.2.toList)) ([], [])

/-! ### The outage retry rounds (scanner.py lines 461–549)

`_run_scan_inner` retries the `api_failed` backlog in up to 4 rounds; before
round `r` it sleeps `retry_wait` seconds, where `retry_wait` starts at 30 and
is doubled (capped at 300) after each sleep.  Inside a round, each item is
classified again: `ClassifierAPIError` keeps the item in the failed list, and
any other exception (in particular the `ValueError` from the 3-target
unpacking of `classify`'s 4-tuple) propagates, aborting the scan with status
`"error"` via `run_scan`'s catch-all.  Effects already written to the store
stay written. -/

structure RoundOutcome where
  stillFailed : List Contribution
  inserted : List ResultRow
  audits : List AuditRow
  raised : Option String

/-- One retry round: the `for c in api_failed:` loop at scanner.py
lines 483–522 (with the cancellation flag false). -/
def retryRoundItems (scanId : Nat) (lookup : String → MemberInfo)
    (call : Contribution → ClassifyCall) : List Contribution → RoundOutcome
  | [] => ⟨[], [], [], Option.none⟩
  | c :: rest =>
    match call c with
    | .raises _ =>
      let o := retryRoundItems scanId lookup call rest
      { o with stillFailed := c :: o.stillFailed }
    | .returns v u =>
      match unpack3 (classifyReturnTuple v u) with
      | .error m => ⟨[], [], [], some m⟩
      | .ok (classification, discard_reason, discard_category) =>
        if pyTruthy classification then
          let info := if c.member_id ≠ "" then lookup c.member_id else emptyMemberInfo
          let o := retryRoundItems scanId lookup call rest
          { o with inserted := mkResultRow scanId c classification info :: o.inserted }
        else
          let o := retryRoundItems scanId lookup call rest
          { o with audits :=
              (mkNotRelevantAudit scanId c (pyToOptStr discard_reason)
                (pyToOptStr discard_category)) :: o.audits }

/-- The fixed reason written for items that are still failing when the retry
rounds are exhausted (scanner.py line 547). -/
def permanentFailReason : String := "Rate limited — classification failed after all retries"

/-- The permanent-failure audit row (scanner.py lines 542–549). -/
def permanentAuditRow (scanId : Nat) (c : Contribution) : AuditRow :=
  { scan_id := scanId
    member_name := c.member_name
    source_type := c.source_type
    text_preview := pyTake c.text 200
    classification := "not_relevant"
    activity_date := c.date
    context := c.context
    full_text := pyTake c.text 2000
    matched_keywords := jsonDumpsStrList c.matched_keywords
    source_url := c.url
    discard_reason := some permanentFailReason
    discard_category := Option.none }

structure PhaseOutcome where
  waits : List Nat
  stillFailed : List Contribution
  inserted : List ResultRow
  audits : List AuditRow
  raised : Option String
  apiPaused : Bool

/-- `for retry_round in range(max_retry_rounds):` (scanner.py lines 471–532),
with `fuel` rounds remaining, the round-`round` classify outcomes given by
`oracle round`, and the current `retry_wait`.  The recorded `waits` are the
arguments of the `await asyncio.sleep(retry_wait)` calls. -/
def retryRoundsGo (scanId : Nat) (lookup : String → MemberInfo)
    (oracle : Nat → Contribution → ClassifyCall) (cancelled : Bool) :
    Nat → Nat → Nat → List Contribution → List Nat → List ResultRow →
    List AuditRow → PhaseOutcome
  | 0, _, _, failed, waits, ins, auds => ⟨waits, failed, ins, auds, Option.none, true⟩
  | fuel + 1, round, wait, failed, waits, ins, auds =>
    if cancelled then ⟨waits, failed, ins, auds, Option.none, true⟩
    else
      let waits' := waits ++ [wait]
      let nextWait := min (wait * 2) 300
      let r := retryRoundItems scanId lookup (oracle round) failed
      match r.raised with
      | some m => ⟨waits', r.stillFailed, ins ++ r.inserted, auds ++ r.audits, some m, true⟩
      | Option.none =>
        if r.stillFailed.isEmpty then
          ⟨waits', [], ins ++ r.inserted, auds ++ r.audits, Option.none, false⟩
        else
          retryRoundsGo scanId lookup oracle cancelled fuel (round + 1) nextWait
            r.stillFailed waits' (ins ++ r.inserted) (auds ++ r.audits)

/-- The whole `if api_failed:` retry block (scanner.py lines 461–549):
up to `max_retry_rounds = 4` rounds starting from `retry_wait = 30`, then the
permanent-failure audit batch for whatever is still failing. -/
def retryPhase (scanId : Nat) (lookup : String → MemberInfo)
    (oracle : Nat → Contribution → ClassifyCall) (cancelled : Bool)
    (failed0 : List Contribution) : PhaseOutcome :=
  if failed0.isEmpty then ⟨[], [], [], [], Option.none, false⟩
  else
    let o := retryRoundsGo scanId lookup oracle cancelled 4 0 30 failed0 [] [] []
    match o.raised with
    | some _ => o
    | Option.none =>
      if o.stillFailed.isEmpty then o
      else { o with audits := o.audits ++ o.stillFailed.map (permanentAuditRow scanId) }

structure ScanFinish where
  status : String
  waits : List Nat
  inserted : List ResultRow
  audits : List AuditRow

/-- The tail of `_run_scan_inner` after search and classification drain
(scanner.py lines 456–567), composed with `run_scan`'s exception handler
(lines 73–79): a cancelled run ends `"cancelled"`, an uncaught exception ends
`"error"`, otherwise the retry phase runs and the scan is marked
`"completed"`. -/
def finishTopicsScan (scanId : Nat) (lookup : String → MemberInfo)
    (oracle : Nat → Contribution → ClassifyCall) (cancelled : Bool)
    (failed0 : List Contribution) : ScanFinish :=
  if cancelled then ⟨"cancelled", [], [], []⟩
  else
    let o := retryPhase scanId lookup oracle false failed0
    ⟨(match o.raised with | some _ => "error" | Option.none => "completed"),
     o.waits, o.inserted, o.audits⟩

/-! ### `insert_result` (database.py lines 722–761)

The `results` table carries `UNIQUE(scan_id, dedup_key)` (schema lines 53–74)
and the insert is `INSERT OR IGNORE`, so a row whose `(scan_id, dedup_key)`
pair is already present is silently dropped.  `first_seen_scan_id` is
`MIN(scan_id)` over existing rows with the same dedup key, falling back to the
inserting scan when there is none (or when the minimum is the falsy `0`). -/

structure StoredResult where
  row : ResultRow
  first_seen_scan_id : Nat

def firstSeenFor (table : List StoredResult) (key : String) (scanId : Nat) : Nat :=
  match ((table.filter (fun s => s.row.dedup_key = key)).map
      (fun s => s.row.scan_id)).min? with
  | some m => if m ≠ 0 then m else scanId
  | Option.none => scanId

def insert_result (table : List StoredResult) (r : ResultRow) : List StoredResult :=
  let first_seen := firstSeenFor table r.dedup_key r.scan_id
  if table.any (fun s => s.row.scan_id = r.scan_id && s.row.dedup_key = r.dedup_key) then
    table
  else table ++ [⟨r, first_seen⟩]

/-! ### `ParliamentAPIClient._get` (parliament.py lines 112–139)

The per-host semaphore and the fixed `REQUEST_DELAY` pre-request sleep only
pace execution.  The loop `for attempt in range(max_retries):` is embedded
with `remaining = max_retries - attempt` as the structural fuel, so the
source's guard `attempt < max_retries - 1` is `remaining > 1`.  The recorded
`waits` are the backoff sleeps in seconds.  The outcome of each HTTP attempt
is supplied by `trace`. -/

inductive HttpOutcome where
  | success (body : PyObj)
  | httpStatusError (code : Nat)
  | requestError

def pyGetAux (trace : Nat → HttpOutcome) :
    Nat → Nat → List Nat → Option PyObj × List Nat
  | _, 0, waits => (Option.none, waits)
  | attempt, remaining + 1, waits =>
    match trace attempt with
    | .success b => (some b, waits)
    | .httpStatusError code =>
      if code = 429 then
        pyGetAux trace (attempt + 1) remaining (waits ++ [2 ^ (attempt + 1)])
      else if 0 < remaining then
        pyGetAux trace (attempt + 1) remaining (waits ++ [2 ^ attempt])
      else (Option.none, waits)
    | .requestError =>
      if 0 < remaining then
        pyGetAux trace (attempt + 1) remaining (waits ++ [2 ^ attempt])
      else (Option.none, waits)

/-- `_get` with the default `max_retries = 3` (no call site overrides it). -/
def pyGet (trace : Nat → HttpOutcome) : Option PyObj × List Nat :=
  pyGetAux trace 0 3 []

/-- The backoff sleep taken after a failed attempt `a` under `max_retries = 3`:
`2^(a+1)` on HTTP 429 (even on the last attempt), `2^a` on other HTTP or
network errors except after the last attempt, which returns directly. -/
def failBackoff (a : Nat) (o : HttpOutcome) : Option Nat :=
  match o with
  | .success _ => Option.none
  | .httpStatusError code =>
    if code = 429 then some (2 ^ (a + 1))
    else if a < 2 then some (2 ^ a) else Option.none
  | .requestError => if a < 2 then some (2 ^ a) else Option.none

/-- The `if not data: return []` guard every search/list caller of `_get`
places on its response (e.g. `search_members`, parliament.py lines 194–196):
a `None` (or falsy) response degrades to an empty result list. -/
def callerDegrade (resp : Option PyObj) (parse : PyObj → List Contribution) :
    List Contribution :=
  match resp with
  | Option.none => []
  | some d => if pyTruthy d then parse d else []

/-! ### Module import wiring and run admission

`backend/services/scanner.py` line 19 is
`from backend.config import KEYWORD_PARALLELISM, CLASSIFIER_CONCURRENCY, CLASSIFIER_STAGGER`;
a `from`-import raises `ImportError` when the module lacks the name.
`backend/main.py`'s startup handler (lines 63–69) wraps
`from backend.services.scanner import run_scan` and
`scans.register_scan_runner(run_scan)` in `try/except Exception`, so on
failure the scans router's `_run_scan_fn` stays `None`. -/

/-- The module-level names `backend/config.py` binds (its lines 9–37). -/
def configModuleNames : List String :=
  ["PROJECT_ROOT", "ANTHROPIC_API_KEY", "ANTHROPIC_MODEL", "DATABASE_PATH",
   "HANSARD_API_BASE", "WRITTEN_QS_API_BASE", "EDM_API_BASE", "BILLS_API_BASE",
   "DIVISIONS_API_BASE", "MEMBERS_API_BASE", "WHATSON_API_BASE",
   "COMMITTEES_API_BASE", "LOOKAHEAD_CACHE_TTL", "REQUEST_DELAY",
   "CLASSIFIER_DELAY", "KEYWORD_PARALLELISM", "RESEND_API_KEY",
   "RESEND_FROM_EMAIL"]

/-- The names scanner.py line 19 imports from `backend.config`. -/
def scannerConfigImportList : List String :=
  ["KEYWORD_PARALLELISM", "CLASSIFIER_CONCURRENCY", "CLASSIFIER_STAGGER"]

def missingScannerImports : List String :=
  scannerConfigImportList.filter (fun n => !configModuleNames.contains n)

/-- Whether `import backend.services.scanner` succeeds. -/
def scannerImportOk : Bool := missingScannerImports.isEmpty

/-- Whether the startup handler leaves a scan runner registered in the scans
router (`_run_scan_fn is not None`). -/
def startupRunnerRegistered : Bool := scannerImportOk

/-- `scanner.MAX_CONCURRENT_SCANS` (scanner.py line 27). -/
def MAX_CONCURRENT_SCANS : Nat := 2

structure ScanRow where
  id : Nat
  status : String
deriving DecidableEq, Repr

/-- Process-wide admission state: `scanner._active_scans`, whether
`scans._run_scan_fn` is set, whether `scanner._on_scan_complete_cb` is set,
and the `scans` table in creation (`created_at ASC`) order. -/
structure AdmissionState where
  activeScans : Nat
  runnerRegistered : Bool
  completeCallbackRegistered : Bool
  scans : List ScanRow
deriving DecidableEq, Repr

/-- In the repository, `scanner.register_scan_complete_callback` has no call
site (and `scans.promote_queued_scan` has no caller), so the module-level
`_on_scan_complete_cb` stays `None` for the process lifetime. -/
def sourceCompleteCallbackRegistered : Bool := false

structure StartScanResult where
  statusAfter : String
  launched : Bool
deriving DecidableEq, Repr

/-- `scans.start_scan` (routers/scans.py lines 49–69): the new scan row is
created (schema default status `"pending"`), marked `"queued"` when
`get_active_scan_count() >= MAX_CONCURRENT_SCANS`, and a `run_scan` task is
launched only when capacity is free and a runner is registered; the launched
task immediately increments `_active_scans` and sets the row `"running"`. -/
def start_scan (st : AdmissionState) (newId : Nat) : StartScanResult × AdmissionState :=
  let status0 := if st.activeScans ≥ MAX_CONCURRENT_SCANS then "queued" else "pending"
  let launch := decide (st.activeScans < MAX_CONCURRENT_SCANS) && st.runnerRegistered
  let status1 := if launch then "running" else status0
  (⟨status1, launch⟩,
   { st with
     scans := st.scans ++ [⟨newId, status1⟩]
     activeScans := st.activeScans + (if launch then 1 else 0) })

/-- `scans.promote_queued_scan` (routers/scans.py lines 72–90): start the
oldest queued scan (`ORDER BY created_at ASC LIMIT 1`) if capacity is free. -/
def promote_queued_scan (st : AdmissionState) : AdmissionState :=
  if st.activeScans ≥ MAX_CONCURRENT_SCANS then st
  else
    match st.scans.find? (fun r => r.status = "queued") with
    | Option.none => st
    | some r =>
      if st.runnerRegistered then
        { st with
          activeScans := st.activeScans + 1
          scans := st.scans.map (fun q => if q.id = r.id then ⟨q.id, "running"⟩ else q) }
      else st

/-- The `finally:` block of `scanner.run_scan` (lines 80–84): on any
completion (success, error, or cancellation) `_active_scans` is decremented
and `_on_scan_complete_cb` is invoked if — and only if — one was registered. -/
def scan_complete (st : AdmissionState) (finishedId : Nat) (finalStatus : String) :
    AdmissionState :=
  let st1 : AdmissionState :=
    { st with
      activeScans := st.activeScans - 1
      scans := st.scans.map (fun r => if r.id = finishedId then ⟨r.id, finalStatus⟩ else r) }
  if st.completeCallbackRegistered then promote_queued_scan st1 else st1

/-! ### Concrete sample data used to evaluate the embedded pipeline -/

/-- A contribution whose classify call yields a Relevant outcome. -/
def cRelevant : Contribution :=
  { id := "4067070", member_name := "Rishi Sunak", member_id := "4212"
    text := "We are investing record amounts in artificial intelligence safety research and regulation."
    date := "2025-03-14", house := "Commons", source_type := "hansard"
    context := "AI Safety", url := "https://hansard.parliament.uk/commons/x"
    matched_keywords := ["artificial intelligence"] }

def relInfoDemo : RelevantInfo :=
  { confidence := "High", topics := ["AI Regulation"]
    summary := "Sunak backs AI safety funding."
    position_signal := "Supportive of AI safety investment."
    verbatim_quote := "We are investing record amounts" }

def usageDemo : LlmUsage := ⟨1000, 120, 800, 0⟩

def lookupDemo : String → MemberInfo :=
  fun _ => ⟨"Rishi Sunak", "Conservative", "MP", "Richmond and Northallerton"⟩

/-- Two contributions with equal identity whose shared text is procedural
(2 words, below every threshold). -/
def cShortA : Contribution :=
  { id := "77", member_name := "Alice MP", member_id := ""
    text := "Too short", date := "2025-01-01", house := "Commons"
    source_type := "edm", context := "", url := ""
    matched_keywords := ["alpha"] }

def cShortB : Contribution := { cShortA with matched_keywords := ["beta"] }

/-- Two contributions with equal identity and substantive (non-procedural)
text, discovered by different keyword searches. -/
def cKwA : Contribution :=
  { id := "q1", member_name := "Bob MP", member_id := "88"
    text := "This committee must consider the impact of artificial intelligence on society"
    date := "2025-02-02", house := "Commons", source_type := "written_question"
    context := "AI", url := "https://questions.example/q1"
    matched_keywords := ["ai", "regulation"] }

def cKwB : Contribution := { cKwA with matched_keywords := ["regulation", "data rights"] }

/-- Items stuck in the `api_failed` backlog during a classifier outage. -/
def cFail1 : Contribution :=
  { id := "d1", member_name := "Carol MP", member_id := "99"
    text := "The committee should fund more research into algorithmic transparency measures"
    date := "2025-04-04", house := "Commons", source_type := "hansard"
    context := "Estimates Day", url := "https://hansard.parliament.uk/commons/d1"
    matched_keywords := ["algorithmic transparency"] }

def cFail2 : Contribution :=
  { id := "wq9", member_name := "Dan MP", member_id := ""
    text := "What assessment has the department made of biometric data retention safeguards"
    date := "2025-05-05", house := "Commons", source_type := "written_question"
    context := "Biometrics", url := "https://questions.example/wq9"
    matched_keywords := ["biometrics"] }

/-- A classifier that keeps raising `ClassifierAPIError` in every round. -/
def alwaysDownOracle : Nat → Contribution → ClassifyCall :=
  fun _ _ => .raises "API error: Connection error."

/-- Admission state with two runs in flight (ids 1 and 2), a runner
registered, and the completion-callback wiring as it is in the source. -/
def admissionTwoRunning : AdmissionState :=
  { activeScans := 2, runnerRegistered := true
    completeCallbackRegistered := sourceCompleteCallbackRegistered
    scans := [⟨1, "running"⟩, ⟨2, "running"⟩] }

def emptyAdmission : AdmissionState :=
  { activeScans := 0, runnerRegistered := false
    completeCallbackRegistered := false, scans := [] }

/-- Sample stored-result fields for the idempotence witness. -/
def rowDemo : ResultRow :=
  { scan_id := 5, dedup_key := "hansard:4067070", member_name := "Rishi Sunak"
    member_id := "4212", party := "Conservative", member_type := "MP"
    constituency := "Richmond and Northallerton"
    topics := .list [.str "AI Regulation"], summary := .str "Sunak backs AI safety funding."
    activity_date := "2025-03-14", forum := "Debate: AI Safety"
    verbatim_quote := .str "We are investing record amounts"
    source_url := "https://hansard.parliament.uk/commons/x"
    confidence := .str "High", position_signal := .str "Supportive"
    source_type := "hansard", raw_text := "We are investing record amounts" }

/-- A retried write for the same `(scan_id, dedup_key)` with different fields. -/
def rowDemoRetry : ResultRow :=
  { rowDemo with summary := .str "Sunak funds AI safety.", confidence := .str "Medium" }

/-- Wait schedule generated by `fuel` retry rounds starting from `wait`
seconds, doubling and capping at 300 after each round. -/
def waitSeq : Nat → Nat → List Nat
  | 0, _ => []
  | fuel + 1, wait => wait :: waitSeq fuel (min (wait * 2) 300)

/-! ## Theorems -/

/-- C6: `is_procedural(text, source_type)` is true exactly when the stripped
text's word count is below the source-type minimum (5 for debate-type
`"hansard"` contributions, 8 otherwise) or an administrative sentence-opening
pattern matches, case-insensitively, anchored at the start; a 4-word debate
contribution is procedural while a pattern-free 5-word one is not, a 7-word
non-debate contribution is procedural while a pattern-free 8-word one is not,
and a pattern only occurring mid-text does not trigger the pattern rule. -/
theorem prefilter_procedural_spec :
    (∀ text source_type : String,
      is_procedural text source_type =
        (decide (pyWordCount (pyStrip text) < specMinWords source_type)
          || proceduralMatch (pyStrip text)))
    ∧ is_procedural "Thank you Mr Speaker" "hansard" = true
    ∧ is_procedural "We must invest in science" "hansard" = false
    ∧ is_procedural "We must invest in science right now" "written_question" = true
    ∧ is_procedural "We must invest in science right now please" "written_question" = false
    ∧ proceduralMatch "The minister said that I beg to move was irrelevant" = false
    ∧ is_procedural "The minister said that I beg to move was irrelevant" "written_question"
        = false
    ∧ is_procedural "i BEG to Move further discussion of policy" "hansard" = true := by
  refine ⟨?_, by decide, by decide, by decide, by decide, by decide, by decide, by decide⟩
  intro text st
  unfold is_procedural specMinWords
  by_cases h : pyWordCount (pyStrip text) < (if st = "hansard" then 5 else 8) <;> simp [h]

/-- C10: `insert_result` is idempotent per `(scan_id, dedup_key)`: a second
insert for an already-present pair is a no-op leaving the table — in
particular the first stored row — unchanged. -/
theorem insert_result_idempotent (table : List StoredResult) (r r2 : ResultRow)
    (hs : r2.scan_id = r.scan_id) (hk : r2.dedup_key = r.dedup_key) :
    insert_result (insert_result table r) r2 = insert_result table r := by
  simp only [insert_result, hs, hk]
  by_cases h : (table.any fun s =>
      decide (s.row.scan_id = r.scan_id) && decide (s.row.dedup_key = r.dedup_key)) = true
  · simp [h]
  · simp only [Bool.not_eq_true] at h
    simp [h, List.any_append]

theorem insert_result_idempotent_witness :
    rowDemoRetry.scan_id = rowDemo.scan_id ∧ rowDemoRetry.dedup_key = rowDemo.dedup_key ∧
    insert_result (insert_result [] rowDemo) rowDemoRetry = insert_result [] rowDemo :=
  ⟨rfl, rfl, insert_result_idempotent [] rowDemo rowDemoRetry rfl rfl⟩

/-- C2: every non-raising `classify` call returns a 4-tuple, so the 3-target
unpacking in `_classify_one` raises `ValueError`; the consumer awaits these
tasks with `gather(..., return_exceptions=True)`, so the exception is
swallowed and the contribution yields neither a result row nor an audit row. -/
theorem classify_unpack_value_error (scanId : Nat) (lookup : String → MemberInfo)
    (c : Contribution) (v : ClassifyValue) (u : LlmUsage) :
    (classifyReturnTuple v u).length = 4
    ∧ classifyOneStep scanId lookup c false false (.returns v u) =
        .pythonError valueErrorUnpack3
    ∧ consumerRun scanId lookup [c] (fun _ => .returns v u) = ([], []) := by
  refine ⟨?_, ?_, ?_⟩ <;> cases v <;> rfl

/-- C1: evaluation of `_classify_one` at a Relevant classify outcome with a
member id present: the 3-target unpacking of the 4-tuple raises `ValueError`,
so no member-enrichment lookup happens and no result row keyed by
`sourceType:identity` is written. -/
theorem relevant_outcome_lost_to_unpack_bug :
    classifyOneStep 7 lookupDemo cRelevant false false
        (.returns (.relevant relInfoDemo) usageDemo) = .pythonError valueErrorUnpack3
    ∧ observedRows (classifyOneStep 7 lookupDemo cRelevant false false
        (.returns (.relevant relInfoDemo) usageDemo)) = (Option.none, Option.none)
    ∧ cRelevant.member_id ≠ ""
    ∧ dedupKey cRelevant = "hansard:4067070" :=
  ⟨rfl, rfl, by decide, rfl⟩

/-- C4: with two runs in flight a third `start_scan` marks the run `"queued"`
and launches nothing; but on completion of a running run the source never
invokes the promotion callback (`register_scan_complete_callback` has no call
site), so the queued run stays `"queued"` even though capacity is free —
whereas with the callback wired, `promote_queued_scan` would have started it. -/
theorem queued_scan_never_promoted :
    (start_scan admissionTwoRunning 3).1 = ⟨"queued", false⟩
    ∧ ((scan_complete (start_scan admissionTwoRunning 3).2 1 "completed").scans.find?
        (fun r => r.id = 3)) = some ⟨3, "queued"⟩
    ∧ (scan_complete (start_scan admissionTwoRunning 3).2 1 "completed").activeScans = 1
    ∧ ((scan_complete
          { (start_scan admissionTwoRunning 3).2 with completeCallbackRegistered := true }
          1 "completed").scans.find? (fun r => r.id = 3)) = some ⟨3, "running"⟩ := by
  decide

/-- C3: `backend/config.py` defines neither `CLASSIFIER_CONCURRENCY` nor
`CLASSIFIER_STAGGER`, so scanner.py's config import fails; the startup
handler catches the exception and leaves the runner unregistered, and with no
registered runner neither `start_scan` nor `promote_queued_scan` can ever
launch a scan pipeline. -/
theorem scanner_import_error_prevents_scans :
    missingScannerImports = ["CLASSIFIER_CONCURRENCY", "CLASSIFIER_STAGGER"]
    ∧ scannerImportOk = false
    ∧ startupRunnerRegistered = false
    ∧ (∀ st : AdmissionState, st.runnerRegistered = false →
        (∀ newId, (start_scan st newId).1.launched = false)
        ∧ promote_queued_scan st = st) := by
  refine ⟨by decide, by decide, by decide, ?_⟩
  intro st h
  constructor
  · intro n
    simp [start_scan, h]
  · unfold promote_queued_scan
    by_cases hc : st.activeScans ≥ MAX_CONCURRENT_SCANS
    · simp [hc]
    · simp only [hc, if_false]
      cases hf : st.scans.find? (fun r => r.status = "queued") with
      | none => rfl
      | some r => simp [h]

theorem scanner_import_error_prevents_scans_witness :
    emptyAdmission.runnerRegistered = false
    ∧ (start_scan emptyAdmission 1).1.launched = false
    ∧ promote_queued_scan emptyAdmission = emptyAdmission :=
  ⟨rfl,
   (scanner_import_error_prevents_scans.2.2.2 emptyAdmission rfl).1 1,
   (scanner_import_error_prevents_scans.2.2.2 emptyAdmission rfl).2⟩

/-! ### Dedup registry lemmas (C5) -/

lemma mergeKeywords_nil (u : List String) : mergeKeywords u [] = u := rfl

lemma mergeKeywords_cons (u : List String) (h : String) (t : List String) :
    mergeKeywords u (h :: t) = mergeKeywords (if h ∈ u then u else u ++ [h]) t := rfl

lemma mem_mergeKeywords (v : List String) : ∀ (u : List String) (k : String),
    k ∈ mergeKeywords u v ↔ k ∈ u ∨ k ∈ v := by
  induction v with
  | nil => intro u k; simp [mergeKeywords_nil]
  | cons h t ih =>
    intro u k
    rw [mergeKeywords_cons, ih]
    by_cases hm : h ∈ u
    · simp only [hm, if_true, List.mem_cons]
      constructor
      · tauto
      · rintro (hk | rfl | hk) <;> tauto
    · simp only [hm, if_false, List.mem_append, List.mem_singleton, List.mem_cons]
      tauto

lemma nodup_mergeKeywords (v : List String) : ∀ u : List String,
    u.Nodup → (mergeKeywords u v).Nodup := by
  induction v with
  | nil => intro u hu; exact hu
  | cons h t ih =>
    intro u hu
    rw [mergeKeywords_cons]
    apply ih
    by_cases hm : h ∈ u
    · simpa [hm] using hu
    · simp [hm, List.nodup_append, hu]

/-- Outcome of admitting two equal-identity contributions `x` then `y` to a
fresh registry: one retained entry holding the keyword merge, an enqueue only
for the first arrival and only when it is not procedural, and the merge being
the duplicate-free union. -/
def pairAdmissionSpec (x y : Contribution) : Prop :=
  (registryAdmit (registryAdmit emptyRegistry x) y).seen =
      [(dedupKey x,
        { x with matched_keywords := mergeKeywords x.matched_keywords y.matched_keywords })]
  ∧ (registryAdmit (registryAdmit emptyRegistry x) y).queuedKeys =
      (if is_procedural x.text x.source_type then [] else [dedupKey x])
  ∧ (registryAdmit (registryAdmit emptyRegistry x) y).queuedKeys.length ≤ 1
  ∧ (∀ k, k ∈ mergeKeywords x.matched_keywords y.matched_keywords ↔
      (k ∈ x.matched_keywords ∨ k ∈ y.matched_keywords))
  ∧ (x.matched_keywords.Nodup →
      (mergeKeywords x.matched_keywords y.matched_keywords).Nodup)

lemma pairAdmission_aux (x y : Contribution) (hkey : dedupKey y = dedupKey x) :
    pairAdmissionSpec x y := by
  refine ⟨?_, ?_, ?_, mem_mergeKeywords _ _, fun h => nodup_mergeKeywords _ _ h⟩ <;>
    by_cases hp : is_procedural x.text x.source_type <;>
      simp [registryAdmit, emptyRegistry, lookupSeen, updateSeen, hkey, hp]

/-- C5 counterexample: two equal-identity contributions whose (shared,
procedural) text never reaches the classification queue — zero enqueues, not
the claimed exactly one. -/
theorem dedup_procedural_zero_enqueues :
    cShortA.source_type = cShortB.source_type
    ∧ cShortA.id = cShortB.id
    ∧ (registryAdmit (registryAdmit emptyRegistry cShortA) cShortB).queuedKeys.length = 0
    ∧ (registryAdmit (registryAdmit emptyRegistry cShortB) cShortA).queuedKeys.length = 0 := by
  decide

/-- C5 (amended): admitting two equal-identity contributions in either order
yields one retained entry, at most one enqueue — exactly one precisely when
the first-admitted contribution is not procedural, and the repeat identity is
never re-enqueued — and the retained `matched_keywords` is the union of both
inputs' keyword lists, duplicate-free whenever the first input's list is. -/
theorem dedup_registry_merge_and_single_enqueue (a b : Contribution)
    (hst : a.source_type = b.source_type) (hid : a.id = b.id) :
    pairAdmissionSpec a b ∧ pairAdmissionSpec b a := by
  have hkey : dedupKey b = dedupKey a := by unfold dedupKey; rw [hst, hid]
  exact ⟨pairAdmission_aux a b hkey, pairAdmission_aux b a hkey.symm⟩

theorem dedup_registry_merge_witness :
    cKwA.source_type = cKwB.source_type ∧ cKwA.id = cKwB.id
    ∧ (pairAdmissionSpec cKwA cKwB ∧ pairAdmissionSpec cKwB cKwA) :=
  ⟨rfl, rfl, dedup_registry_merge_and_single_enqueue cKwA cKwB rfl rfl⟩

/-! ### `_get` retry lemmas (C7) -/

lemma pyGetAux_step_fail (trace : Nat → HttpOutcome) (a r : Nat) (waits : List Nat)
    (hf : ∀ b, trace a ≠ .success b) (hr : 0 < r) (ha : a < 2) :
    pyGetAux trace a (r + 1) waits =
      pyGetAux trace (a + 1) r (waits ++ (failBackoff a (trace a)).toList) := by
  rcases htr : trace a with b | code | _
  · exact absurd htr (hf b)
  · by_cases hc : code = 429 <;> simp [pyGetAux, htr, failBackoff, hc, hr, ha]
  · simp [pyGetAux, htr, failBackoff, hr, ha]

lemma pyGetAux_last_fail (trace : Nat → HttpOutcome) (a : Nat) (waits : List Nat)
    (hf : ∀ b, trace a ≠ .success b) (ha : ¬ a < 2) :
    pyGetAux trace a 1 waits =
      (Option.none, waits ++ (failBackoff a (trace a)).toList) := by
  rcases htr : trace a with b | code | _
  · exact absurd htr (hf b)
  · by_cases hc : code = 429 <;> simp [pyGetAux, htr, failBackoff, hc, ha]
  · simp [pyGetAux, htr, failBackoff, ha]

/-- C7: within one `_get` call, a failed attempt `a` sleeps `2^(a+1)` seconds
when it was an HTTP 429 (retrying until all `max_retries = 3` attempts are
used) and `2^a` seconds for any other HTTP or network error except after the
final attempt; after exhausting the attempts the call returns the failure
value `None` instead of raising, and the caller's `if not data:` guard
degrades that to an empty result list. -/
theorem rate_limited_get_retry_policy :
    (∀ trace : Nat → HttpOutcome,
      (∀ a, a < 3 → ∀ b, trace a ≠ .success b) →
      pyGet trace =
        (Option.none, (List.range 3).filterMap (fun a => failBackoff a (trace a))))
    ∧ (∀ parse : PyObj → List Contribution, callerDegrade Option.none parse = []) := by
  constructor
  · intro trace h
    have h0 : ∀ b, trace 0 ≠ .success b := h 0 (by decide)
    have h1 : ∀ b, trace 1 ≠ .success b := h 1 (by decide)
    have h2 : ∀ b, trace 2 ≠ .success b := h 2 (by decide)
    calc pyGet trace
        = pyGetAux trace 1 2 ([] ++ (failBackoff 0 (trace 0)).toList) :=
          pyGetAux_step_fail trace 0 2 [] h0 (by decide) (by decide)
      _ = pyGetAux trace 2 1
            (([] ++ (failBackoff 0 (trace 0)).toList) ++ (failBackoff 1 (trace 1)).toList) :=
          pyGetAux_step_fail trace 1 1 _ h1 (by decide) (by decide)
      _ = (Option.none,
            ((([] ++ (failBackoff 0 (trace 0)).toList) ++ (failBackoff 1 (trace 1)).toList)
              ++ (failBackoff 2 (trace 2)).toList)) :=
          pyGetAux_last_fail trace 2 _ h2 (by decide)
      _ = (Option.none, (List.range 3).filterMap (fun a => failBackoff a (trace a))) := by
          have hr : List.range 3 = [0, 1, 2] := rfl
          rw [hr]
          rcases hf0 : failBackoff 0 (trace 0) with _ | w0 <;>
            rcases hf1 : failBackoff 1 (trace 1) with _ | w1 <;>
              rcases hf2 : failBackoff 2 (trace 2) with _ | w2 <;>
                simp [List.filterMap_cons, hf0, hf1, hf2]
  · intro parse
    rfl

theorem rate_limited_get_retry_policy_witness :
    pyGet (fun _ => .httpStatusError 429) = (Option.none, [2, 4, 8])
    ∧ callerDegrade Option.none (fun _ => []) = [] := by
  constructor
  · have h := rate_limited_get_retry_policy.1 (fun _ => HttpOutcome.httpStatusError 429)
      (fun a _ b hb => HttpOutcome.noConfusion hb)
    exact h.trans rfl
  · exact rate_limited_get_retry_policy.2 (fun _ => [])

/-! ### Outage retry-round lemmas (C8, C9) -/

lemma retryRoundItems_allFail (scanId : Nat) (lookup : String → MemberInfo)
    (call : Contribution → ClassifyCall) (hf : ∀ c, ∃ m, call c = ClassifyCall.raises m) :
    ∀ items, retryRoundItems scanId lookup call items = ⟨items, [], [], Option.none⟩ := by
  intro items
  induction items with
  | nil => rfl
  | cons c rest ih =>
    obtain ⟨m, hm⟩ := hf c
    simp [retryRoundItems, hm, ih]

lemma retryRoundsGo_allFail (scanId : Nat) (lookup : String → MemberInfo)
    (oracle : Nat → Contribution → ClassifyCall)
    (hfail : ∀ r c, ∃ m, oracle r c = ClassifyCall.raises m)
    (failed : List Contribution) (hne : failed ≠ []) :
    ∀ (fuel round wait : Nat) (waits : List Nat) (ins : List ResultRow)
      (auds : List AuditRow),
      retryRoundsGo scanId lookup oracle false fuel round wait failed waits ins auds =
        ⟨waits ++ waitSeq fuel wait, failed, ins, auds, Option.none, true⟩ := by
  intro fuel
  induction fuel with
  | zero => intro round wait waits ins auds; simp [retryRoundsGo, waitSeq]
  | succ f ih =>
    intro round wait waits ins auds
    have hr := retryRoundItems_allFail scanId lookup (oracle round) (hfail round) failed
    have hne' : failed.isEmpty = false := by
      cases failed
      · exact absurd rfl hne
      · rfl
    simp [retryRoundsGo, hr, hne', ih, waitSeq]

lemma finishTopicsScan_allFail (scanId : Nat) (lookup : String → MemberInfo)
    (oracle : Nat → Contribution → ClassifyCall) (failed0 : List Contribution)
    (hne : failed0 ≠ []) (hfail : ∀ r c, ∃ m, oracle r c = ClassifyCall.raises m) :
    finishTopicsScan scanId lookup oracle false failed0 =
      ⟨"completed", [30, 60, 120, 240], [], failed0.map (permanentAuditRow scanId)⟩ := by
  have hne' : failed0.isEmpty = false := by
    cases failed0
    · exact absurd rfl hne
    · rfl
  have hgo := retryRoundsGo_allFail scanId lookup oracle hfail failed0 hne 4 0 30 [] [] []
  simp [finishTopicsScan, retryPhase, hne', hgo]
  rfl

/-- C8 counterexample: with a persistently failing classifier the retry
phase sleeps 30, 60, 120 and 240 seconds — four rounds; there is no fifth
round and no 300-second wait. -/
theorem outage_retry_no_fifth_round :
    (finishTopicsScan 11 (fun _ => emptyMemberInfo) alwaysDownOracle false [cFail1]).waits
        = [30, 60, 120, 240]
    ∧ (finishTopicsScan 11 (fun _ => emptyMemberInfo) alwaysDownOracle false [cFail1]).waits
        ≠ [30, 60, 120, 240, 300] :=
  ⟨rfl, by decide⟩

/-- C8 (amended): when items remain in the failed list and the classifier
keeps failing, the wait before each retry round `r` is `min(30 * 2^r, 300)`
seconds with `r` starting at 0 — concretely 30s, 60s, 120s and 240s for the
rounds 0–3 that exist — and exactly 4 retry rounds run before the
permanently-failed items are written to the audit log. -/
theorem outage_retry_wait_schedule (scanId : Nat) (lookup : String → MemberInfo)
    (oracle : Nat → Contribution → ClassifyCall) (failed0 : List Contribution)
    (hne : failed0 ≠ []) (hfail : ∀ r c, ∃ m, oracle r c = ClassifyCall.raises m) :
    (finishTopicsScan scanId lookup oracle false failed0).waits = [30, 60, 120, 240]
    ∧ (finishTopicsScan scanId lookup oracle false failed0).waits =
        (List.range 4).map (fun round => min (30 * 2 ^ round) 300)
    ∧ (finishTopicsScan scanId lookup oracle false failed0).waits.length = 4
    ∧ (finishTopicsScan scanId lookup oracle false failed0).audits =
        failed0.map (permanentAuditRow scanId) := by
  have hfin := finishTopicsScan_allFail scanId lookup oracle failed0 hne hfail
  have hmap : (List.range 4).map (fun round => min (30 * 2 ^ round) 300) =
      ([30, 60, 120, 240] : List Nat) := by decide
  rw [hfin, hmap]
  exact ⟨rfl, rfl, rfl, rfl⟩

theorem outage_retry_wait_schedule_witness :
    ([cFail1] ≠ ([] : List Contribution))
    ∧ (finishTopicsScan 12 (fun _ => emptyMemberInfo) alwaysDownOracle false [cFail1]).waits
        = [30, 60, 120, 240] :=
  ⟨by decide,
   (outage_retry_wait_schedule 12 (fun _ => emptyMemberInfo) alwaysDownOracle [cFail1]
     (by decide) (fun _ _ => ⟨"API error: Connection error.", rfl⟩)).1⟩

/-- C9 counterexample: the permanent-failure audit rows carry the fixed
reason string `"Rate limited — classification failed after all retries"`,
which is not the claimed `"classification failed after all retries"`. -/
theorem permanent_audit_reason_not_bare :
    ((finishTopicsScan 13 (fun _ => emptyMemberInfo) alwaysDownOracle false [cFail2]).audits.map
        (fun row => row.discard_reason)) = [some permanentFailReason]
    ∧ permanentFailReason ≠ "classification failed after all retries" :=
  ⟨rfl, by decide⟩

/-- C9 (amended): a `ClassifierAPIError` is never recorded as a definitive
not-relevant outcome at the moment it occurs — the contribution is diverted
to the failed-item list with no result row and no audit row — and only items
still failing after all retry rounds are written to the audit log, each with
the fixed reason `"Rate limited — classification failed after all retries"`,
while the run still reaches `"completed"` rather than `"error"`. -/
theorem transient_failure_routed_and_audited (scanId : Nat)
    (lookup : String → MemberInfo) (oracle : Nat → Contribution → ClassifyCall)
    (failed0 : List Contribution) (c : Contribution) (e : String)
    (hfail : ∀ r c, ∃ m, oracle r c = ClassifyCall.raises m) :
    classifyOneStep scanId lookup c false false (.raises e) = .divertedToRetry (some e)
    ∧ observedRows (classifyOneStep scanId lookup c false false (.raises e)) =
        (Option.none, Option.none)
    ∧ (finishTopicsScan scanId lookup oracle false failed0).audits =
        failed0.map (permanentAuditRow scanId)
    ∧ (∀ row ∈ (finishTopicsScan scanId lookup oracle false failed0).audits,
        row.discard_reason = some permanentFailReason ∧ row.classification = "not_relevant")
    ∧ (finishTopicsScan scanId lookup oracle false failed0).inserted = []
    ∧ (finishTopicsScan scanId lookup oracle false failed0).status = "completed" := by
  have hbase : ∀ rows : List AuditRow, rows = failed0.map (permanentAuditRow scanId) →
      ∀ row ∈ rows,
        row.discard_reason = some permanentFailReason ∧ row.classification = "not_relevant" := by
    rintro rows rfl row hrow
    obtain ⟨c', _, rfl⟩ := List.mem_map.mp hrow
    exact ⟨rfl, rfl⟩
  by_cases hne : failed0 = []
  · subst hne
    exact ⟨rfl, rfl, rfl, hbase _ rfl, rfl, rfl⟩
  · have hfin := finishTopicsScan_allFail scanId lookup oracle failed0 hne hfail
    rw [hfin]
    exact ⟨rfl, rfl, rfl, hbase _ rfl, rfl, rfl⟩

theorem transient_failure_routed_and_audited_witness :
    classifyOneStep 14 (fun _ => emptyMemberInfo) cFail2 false false
        (.raises "Classifier API timeout") = .divertedToRetry (some "Classifier API timeout")
    ∧ (finishTopicsScan 14 (fun _ => emptyMemberInfo) alwaysDownOracle false [cFail2]).status
        = "completed" :=
  ⟨(transient_failure_routed_and_audited 14 (fun _ => emptyMemberInfo) alwaysDownOracle
      [cFail2] cFail2 "Classifier API timeout"
      (fun _ _ => ⟨"API error: Connection error.", rfl⟩)).1,
   (transient_failure_routed_and_audited 14 (fun _ => emptyMemberInfo) alwaysDownOracle
      [cFail2] cFail2 "Classifier API timeout"
      (fun _ _ => ⟨"API error: Connection error.", rfl⟩)).2.2.2.2.2⟩

end ParliamentaryScanner
